import Mathlib

/-!
Formal model of the tlsdb interactive TLS debugger (`main.go`, `route.go`).

The definitions below are a shallow embedding of the Go sources: bytes are
`Nat`s (values below 256 in well-formed data), a network stream is the list
of chunks that successive `Read` calls deliver, Go maps are modelled by
their key lists, and functions that can panic at run time (nil-pointer
dereference, indexing a nil slice) return an `Option` whose `none` stands
for the panic.  The network, DNS resolution and string tokenizing are
external collaborators: commands reach `handleCMD` already tokenized, with
their endpoint arguments already resolved, exactly as in `main.go`.
-/

namespace Tlsdb

/-! ## Record codec (`main.go`: `tlsRecord`, `toBytes`, `readTLSRecord`) -/

/-- A TLS record as in `main.go`.  The Go field `Type` is rendered `typ`
(`Type` is reserved in Lean); the `Remote` address field is filled in by
the network layer after decoding and is omitted here. -/
structure tlsRecord where
  typ : Nat
  Version : List Nat
  Length : Nat
  Data : List Nat
  deriving DecidableEq, Repr

/-- `(*tlsRecord).toBytes` from `main.go`: the type byte, the version
bytes, then the stored `Length` field written big-endian by
`binary.BigEndian.PutUint16` (`Length` is a `uint16` in Go, hence the
`% 256` reductions), then the payload bytes. -/
def tlsRecord.toBytes (r : tlsRecord) : List Nat :=
  r.typ :: (r.Version ++ (r.Length / 256 % 256 :: (r.Length % 256 :: r.Data)))

/-- One `conn.Read` call against a fragmented stream: it delivers at most
`n` bytes taken from the first pending chunk, leaves any unread tail of
that chunk at the head of the stream, and fails (I/O error / EOF) on an
exhausted stream. -/
def readStream (n : Nat) : List (List Nat) → Option (List Nat × List (List Nat))
  | [] => none
  | c :: rest => some (c.take n, if c.drop n = [] then rest else c.drop n :: rest)

/-- The exact-read payload loop of `readTLSRecord`
(`for l < int(recordLength)` in `main.go`): each iteration reads into the
window `[l, r)` where `r = min (l + 512) recordLength`, a short read just
advances `l` by the bytes obtained.  The sequentially written buffer is the
accumulator `acc` (its length is `l`).  `fuel` bounds the number of `Read`
calls; the theorems below always supply enough of it. -/
def readLoop : Nat → Nat → List Nat → List (List Nat) → Option (List Nat × List (List Nat))
  | 0, need, acc, stream =>
    if need ≤ acc.length then some (acc, stream) else none
  | fuel + 1, need, acc, stream =>
    if need ≤ acc.length then some (acc, stream)
    else
      match readStream ((if acc.length + 512 < need then acc.length + 512 else need) - acc.length) stream with
      | none => none
      | some tr => readLoop fuel need (acc ++ tr.1) tr.2

/-- `readTLSRecord` from `main.go`.  The header is obtained by a single
`conn.Read(buf)` into a zeroed 5-byte buffer whose returned byte count the
code ignores, so a short first read leaves trailing zero bytes in `buf`;
then the type-range check `recordType < 0x14 || recordType > 0x18`, the
big-endian length from `buf[3:5]`, and the exact-read payload loop. -/
def readTLSRecord (fuel : Nat) (stream : List (List Nat)) : Option tlsRecord :=
  match readStream 5 stream with
  | none => none
  | some hr =>
    let buf := hr.1 ++ List.replicate (5 - hr.1.length) 0
    if buf.getD 0 0 < 0x14 ∨ buf.getD 0 0 > 0x18 then none
    else
      match readLoop fuel (buf.getD 3 0 * 256 + buf.getD 4 0) [] hr.2 with
      | none => none
      | some dr =>
        some (tlsRecord.mk (buf.getD 0 0) [buf.getD 1 0, buf.getD 2 0]
          (buf.getD 3 0 * 256 + buf.getD 4 0) dr.1)

/-! ## Codec lemmas -/

/-- Once all `need` bytes are collected the loop exits at once, for any
fuel. -/
theorem readLoop_done (fuel need : Nat) (acc : List Nat) (s : List (List Nat))
    (h : need ≤ acc.length) : readLoop fuel need acc s = some (acc, s) := by
  cases fuel <;> simp [readLoop, h]

/-- The payload loop drains a single pending chunk holding exactly the
missing bytes, independently of the 512-byte windowing, whenever the fuel
covers the number of reads. -/
theorem readLoop_single (fuel : Nat) :
    ∀ (need : Nat) (acc c : List Nat) (rest : List (List Nat)),
      c ≠ [] → acc.length + c.length = need → c.length ≤ fuel →
      readLoop fuel need acc (c :: rest) = some (acc ++ c, rest) := by
  induction fuel with
  | zero =>
    intro need acc c rest hc hlen hf
    exact absurd (List.length_eq_zero.mp (Nat.le_zero.mp hf)) hc
  | succ f ih =>
    intro need acc c rest hc hlen hf
    have hcpos : 0 < c.length := List.length_pos.mpr hc
    have hacc : ¬ need ≤ acc.length := by omega
    by_cases hbig : 512 < c.length
    · have hr : acc.length + 512 < need := by omega
      have hlendrop : (c.drop 512).length = c.length - 512 := List.length_drop 512 c
      have hdrop : c.drop 512 ≠ [] := by
        intro hnil
        rw [hnil] at hlendrop
        simp at hlendrop
        omega
      have hn : (if acc.length + 512 < need then acc.length + 512 else need) - acc.length = 512 := by
        rw [if_pos hr]; omega
      simp only [readLoop, if_neg hacc, hn, readStream, if_neg hdrop]
      rw [ih need (acc ++ c.take 512) (c.drop 512) rest hdrop
        (by simp [List.length_take]; omega) (by simp [List.length_drop]; omega)]
      rw [List.append_assoc, List.take_append_drop]
    · have hnotbig : ¬ (acc.length + 512 < need) := by omega
      have hn : (if acc.length + 512 < need then acc.length + 512 else need) - acc.length
          = c.length := by rw [if_neg hnotbig]; omega
      simp only [readLoop, if_neg hacc, hn, readStream, List.take_length, List.drop_length,
        if_pos rfl]
      exact readLoop_done f need (acc ++ c) rest (by simp; omega)

/-- Unfolding `readTLSRecord` on a stream whose first chunk is a full
header followed by the payload bytes. -/
theorem readTLSRecord_cons (fuel t v0 v1 x y : Nat) (p : List Nat)
    (ht : ¬ (t < 0x14 ∨ t > 0x18)) :
    readTLSRecord fuel [t :: v0 :: v1 :: x :: y :: p]
      = match readLoop fuel (x * 256 + y) [] (if p = [] then [] else [p]) with
        | none => none
        | some dr => some (tlsRecord.mk t [v0, v1] (x * 256 + y) dr.1) := by
  show (if t < 0x14 ∨ t > 0x18 then none
    else match readLoop fuel (x * 256 + y) [] (if p = [] then [] else [p]) with
      | none => none
      | some dr => some (tlsRecord.mk t [v0, v1] (x * 256 + y) dr.1)) = _
  rw [if_neg ht]

/-! ## Claim C2: decode after encode round-trips -/

/-- Claim C2: for every type in `{0x14..0x18}`, every 2-byte version and
every payload of at most 65535 bytes, decoding the single-chunk encoding of
the record built from `(type, version, payload)` (whose `Length` field is
the payload length) yields back exactly that record, length field
included. -/
theorem decode_encode_roundtrip (t : Nat) (v p : List Nat)
    (ht1 : 0x14 ≤ t) (ht2 : t ≤ 0x18) (hv : v.length = 2) (hp : p.length ≤ 65535) :
    readTLSRecord (p.length + 1) [(tlsRecord.mk t v p.length p).toBytes]
      = some (tlsRecord.mk t v p.length p) := by
  obtain ⟨v0, v1, rfl⟩ : ∃ a b, v = [a, b] := by
    match v, hv with
    | [a, b], _ => exact ⟨a, b, rfl⟩
  have hbytes : (tlsRecord.mk t [v0, v1] p.length p).toBytes
      = t :: v0 :: v1 :: (p.length / 256 % 256) :: (p.length % 256) :: p := rfl
  have ht : ¬ (t < 0x14 ∨ t > 0x18) := by omega
  have hlen : p.length / 256 % 256 * 256 + p.length % 256 = p.length := by omega
  rw [hbytes, readTLSRecord_cons (p.length + 1) t v0 v1 _ _ p ht, hlen]
  by_cases hpnil : p = []
  · subst hpnil
    simp [readLoop]
  · rw [if_neg hpnil, readLoop_single (p.length + 1) p.length [] p [] hpnil (by simp) (by omega)]
    simp

/-- Concrete instance certifying that the hypotheses of
`decode_encode_roundtrip` are satisfiable. -/
theorem decode_encode_roundtrip_witness :
    (0x14 ≤ 0x17 ∧ 0x17 ≤ 0x18 ∧ ([3, 3] : List Nat).length = 2
      ∧ ([104, 105] : List Nat).length ≤ 65535)
    ∧ readTLSRecord (([104, 105] : List Nat).length + 1)
        [(tlsRecord.mk 0x17 [3, 3] ([104, 105] : List Nat).length [104, 105]).toBytes]
      = some (tlsRecord.mk 0x17 [3, 3] ([104, 105] : List Nat).length [104, 105]) :=
  ⟨by decide,
    decode_encode_roundtrip 0x17 [3, 3] [104, 105] (by decide) (by decide) (by decide) (by decide)⟩

/-! ## Claim C1: header reading under fragmentation -/

/-- Claim C1 (code bug): the well-formed record bytes
`[0x17, 0x03, 0x03, 0x00, 0x01, 0xAB]` decode to the intended record when
delivered in one chunk, but delivered as six 1-byte chunks the single
header `Read` (whose byte count `readTLSRecord` ignores) obtains only
`0x17` and leaves four zero bytes in the header buffer, so the decoder
returns a different record (version `[0,0]`, length `0`, empty payload)
instead of reading the remaining 4 header bytes. -/
theorem readTLSRecord_header_fragmentation_bug :
    readTLSRecord 8 [[0x17, 0x03, 0x03, 0x00, 0x01, 0xAB]]
      = some (tlsRecord.mk 0x17 [0x03, 0x03] 1 [0xAB])
    ∧ readTLSRecord 8 [[0x17], [0x03], [0x03], [0x00], [0x01], [0xAB]]
      = some (tlsRecord.mk 0x17 [0, 0] 0 [])
    ∧ tlsRecord.mk 0x17 [0x03, 0x03] 1 [0xAB] ≠ tlsRecord.mk 0x17 [0, 0] 0 [] := by
  decide

/-! ## Claim C3: what length bytes does `toBytes` write? -/

/-- Claim C3 (counterexample): `toBytes` does not recompute the length
field from the payload.  On the record with stored `Length = 7` and a
3-byte payload, the serialized length field holds `7`, not `3`. -/
theorem toBytes_stale_length_counterexample :
    (tlsRecord.mk 0x17 [3, 3] 7 [1, 2, 3]).toBytes = [0x17, 3, 3, 0, 7, 1, 2, 3]
    ∧ ¬ ((tlsRecord.mk 0x17 [3, 3] 7 [1, 2, 3]).toBytes.getD 3 0 * 256
          + (tlsRecord.mk 0x17 [3, 3] 7 [1, 2, 3]).toBytes.getD 4 0
        = (tlsRecord.mk 0x17 [3, 3] 7 [1, 2, 3]).Data.length) := by
  decide

/-- Claim C3 (amended): `toBytes` serializes
`type || version || length || payload` where the length field written is
the record's stored `Length` (as a big-endian `uint16`), not a value
recomputed from the payload; hence the serialized length field equals the
payload length exactly when the stored `Length` agrees with it. -/
theorem toBytes_writes_stored_length (t L : Nat) (v d : List Nat)
    (hv : v.length = 2) (hl : L < 65536) :
    (tlsRecord.mk t v L d).toBytes = t :: (v ++ (L / 256 :: L % 256 :: d))
    ∧ ((tlsRecord.mk t v L d).toBytes.getD 3 0 * 256
          + (tlsRecord.mk t v L d).toBytes.getD 4 0 = d.length
        ↔ L = d.length) := by
  obtain ⟨v0, v1, rfl⟩ : ∃ a b, v = [a, b] := by
    match v, hv with
    | [a, b], _ => exact ⟨a, b, rfl⟩
  have hdiv : L / 256 % 256 = L / 256 := by omega
  constructor
  · show t :: ([v0, v1] ++ (L / 256 % 256 :: L % 256 :: d)) = _
    rw [hdiv]
  · show L / 256 % 256 * 256 + L % 256 = d.length ↔ L = d.length
    constructor
    · intro h; omega
    · intro h; omega

/-- Concrete instance certifying that the hypotheses of
`toBytes_writes_stored_length` are satisfiable. -/
theorem toBytes_writes_stored_length_witness :
    (([3, 1] : List Nat).length = 2 ∧ (2 : Nat) < 65536)
    ∧ ((tlsRecord.mk 22 [3, 1] 2 [9, 9]).toBytes
          = 22 :: (([3, 1] : List Nat) ++ (2 / 256 :: 2 % 256 :: [9, 9]))
        ∧ ((tlsRecord.mk 22 [3, 1] 2 [9, 9]).toBytes.getD 3 0 * 256
              + (tlsRecord.mk 22 [3, 1] 2 [9, 9]).toBytes.getD 4 0
            = ([9, 9] : List Nat).length
          ↔ (2 : Nat) = ([9, 9] : List Nat).length)) :=
  ⟨by decide, toBytes_writes_stored_length 22 2 [3, 1] [9, 9] (by decide) (by decide)⟩

/-! ## Endpoints (`route.go`: `EndPoint`, `NewEndPoint`) and `net.IP.To4` -/

/-- `EndPoint` from `route.go`: a 4-byte IPv4 address plus a port, a value
type compared by value (the `[4]byte` array is the `ip` list, always of
length 4 for endpoints built by `NewEndPoint`). -/
structure EndPoint where
  ip : List Nat
  Port : Nat
  deriving DecidableEq, Repr

/-- `net.IP.To4` (Go standard library, an external collaborator of
`route.go`): a 4-byte address is returned as is, a 16-byte IPv4-mapped
IPv6 address (ten zero bytes then `0xff 0xff`) is narrowed to its last
4 bytes, and every other address has no IPv4 form (`To4` returns nil,
modelled as `none`). -/
def to4 (ip : List Nat) : Option (List Nat) :=
  if ip.length = 4 then some ip
  else if ip.length = 16 ∧ ip.take 10 = List.replicate 10 0
      ∧ ip.getD 10 0 = 0xff ∧ ip.getD 11 0 = 0xff then some (ip.drop 12)
  else none

/-- `NewEndPoint` from `route.go`: `ipbs := ip.To4()` followed by the loop
`for i: ep.IP[i] = ipbs[i]`.  Indexing a nil (or too short) slice panics,
which the model renders as `none`. -/
def NewEndPoint (ip : List Nat) (port : Nat) : Option EndPoint :=
  match to4 ip with
  | none => none
  | some ipbs =>
    match ipbs[0]?, ipbs[1]?, ipbs[2]?, ipbs[3]? with
    | some b0, some b1, some b2, some b3 => some (EndPoint.mk [b0, b1, b2, b3] port)
    | _, _, _, _ => none

/-- The `parseEP` closure inside `handleCMD` (`main.go`), applied to the
addresses returned by `net.LookupIP` (DNS is external, so the resolved
address list is the argument) and an already parsed port.  The outer
`Option` is `none` when the code panics inside `NewEndPoint`; the inner
`Option` is `none` when `parseEP` returns the operator-facing error
`"IP not found."`. -/
def parseEP (ips : List (List Nat)) (port : Nat) : Option (Option EndPoint) :=
  match ips with
  | [] => some none
  | ip :: _ =>
    match NewEndPoint ip port with
    | none => none
    | some ep => some (some ep)

/-! ## Command parsing (`main.go`: `commandtype`, `getCommandType`,
`getNextCommand`) -/

/-- `commandtype` from `main.go`. -/
inductive commandtype where
  | breakType
  | addRoute
  | removeRoute
  | listRoute
  | setDefaultRoute
  | forwardRecord
  | dropRecord
  | quitProgram
  | continueType
  | unknown
  deriving DecidableEq, Repr

/-- `getCommandType` from `main.go`: the switch over the first command
byte.  The cases are the ASCII bytes of `b a l s f d q c`; there is no
case for `r` (114). -/
def getCommandType (c : Nat) : commandtype :=
  match c with
  | 98 => commandtype.breakType
  | 97 => commandtype.addRoute
  | 108 => commandtype.listRoute
  | 115 => commandtype.setDefaultRoute
  | 102 => commandtype.forwardRecord
  | 100 => commandtype.dropRecord
  | 113 => commandtype.quitProgram
  | 99 => commandtype.continueType
  | _ => commandtype.unknown

/-- `getNextCommand` from `main.go`, modelled after the external
line-splitting: given the trimmed tokens of the line, it rejects the line
(`nil`, i.e. "Wrong syntax!") unless the first token is a single byte
whose `getCommandType` is known, and otherwise yields that command type
with the remaining tokens as arguments. -/
def getNextCommand (tks : List (List Nat)) : Option (commandtype × List (List Nat)) :=
  if tks.length = 0 ∨ (tks.headD []).length ≠ 1
      ∨ getCommandType ((tks.headD []).headD 0) = commandtype.unknown
  then none
  else some (getCommandType ((tks.headD []).headD 0), tks.tail)

/-! ## The interception engine state and `handleCMD` (`main.go`) -/

/-- The typed command reaching `handleCMD`: the `commandtype` together
with its arguments after the external parsing steps (`strconv.Atoi` for
the breakpoint byte, DNS + `parseEP` for endpoints). -/
inductive Cmd where
  | breakType (bp : Nat)
  | addRoute (ep : EndPoint)
  | removeRoute (ep : EndPoint)
  | listRoute
  | setDefaultRoute (ep : EndPoint)
  | forwardRecord
  | dropRecord
  | quitProgram
  | continueType
  | unknownCmd
  deriving DecidableEq, Repr

/-- Operator-facing errors returned by `handleCMD` (the Go strings
`"Args wrong."`, `"No such route."`, `"No record"`, `"Unknown command"`). -/
inductive CmdError where
  | argsWrong
  | noSuchRoute
  | noRecord
  | unknownCommand
  deriving DecidableEq, Repr

/-- Side effects `handleCMD` performs on routes: `re.Run()` when adding,
`re.Close()` when removing, `re.Write(record.toBytes())` when
forwarding. -/
inductive Effect where
  | runRoute (ep : EndPoint)
  | closeRoute (ep : EndPoint)
  | writeRoute (ep : EndPoint) (data : List Nat)
  deriving DecidableEq, Repr

/-- The mutable globals of `main.go` that `handleCMD` touches:
`routeTable` (a Go map, modelled by its key list), `defaultroute`
(a possibly nil pointer), and `breakpoints` (a Go set-map, modelled by its
key list). -/
structure EngineState where
  routeTable : List EndPoint
  defaultroute : Option EndPoint
  breakpoints : List Nat
  deriving DecidableEq, Repr

/-- `breakpoints` as initialized in `main`:
`map[tlsRecordType]bool{0x17: true}`. -/
def initialBreakpoints : List Nat := [0x17]

/-- The shared body of the `forwardRecord` case and of the `continueType`
fallthrough in `handleCMD`: `re := routeTable[*defaultroute]` dereferences
the `defaultroute` pointer (panic — `none` — when it is nil), then a nil
`record` yields the `"No record"` error, and otherwise
`re.Write(record.toBytes())` runs (panicking when the default endpoint has
no table entry, since `re` is then a nil `*RouteEntry`). -/
def forwardBody (rec : Option tlsRecord) (st : EngineState) :
    Option (Bool × Option CmdError × EngineState × List Effect) :=
  match st.defaultroute with
  | none => none
  | some dep =>
    match rec with
    | none => some (false, some CmdError.noRecord, st, [])
    | some r =>
      if dep ∈ st.routeTable then some (true, none, st, [Effect.writeRoute dep r.toBytes])
      else none

/-- `handleCMD` from `main.go`.  It returns `bk` (whether the pause is
resolved and the engine resumes), the error shown to the operator, the
updated globals and the route effects; `none` models a run-time panic.
Argument-arity and parse failures happen before the typed command is
formed and are not represented.  Note the Go switch has no
`quitProgram` case, so `q` falls through returning `(false, nil)`. -/
def handleCMD (cmd : Cmd) (rec : Option tlsRecord) (st : EngineState) :
    Option (Bool × Option CmdError × EngineState × List Effect) :=
  match cmd with
  | Cmd.breakType bp =>
    if bp % 256 ∈ st.breakpoints then
      some (false, none,
        EngineState.mk st.routeTable st.defaultroute (st.breakpoints.erase (bp % 256)), [])
    else
      some (false, none,
        EngineState.mk st.routeTable st.defaultroute (bp % 256 :: st.breakpoints), [])
  | Cmd.addRoute ep =>
    some (false, none,
      EngineState.mk
        (if ep ∈ st.routeTable then st.routeTable else st.routeTable ++ [ep])
        (if st.routeTable.length = 0 then some ep else st.defaultroute)
        st.breakpoints,
      [Effect.runRoute ep])
  | Cmd.removeRoute ep =>
    if ep ∈ st.routeTable then
      some (false, none,
        EngineState.mk (st.routeTable.erase ep) st.defaultroute st.breakpoints,
        [Effect.closeRoute ep])
    else
      some (false, some CmdError.noSuchRoute, st, [])
  | Cmd.listRoute =>
    if st.routeTable.length = 0 then some (false, none, st, [])
    else
      match st.defaultroute with
      | none => none
      | some _ => some (false, none, st, [])
  | Cmd.setDefaultRoute ep =>
    if ep ∈ st.routeTable then
      some (false, none, EngineState.mk st.routeTable (some ep) st.breakpoints, [])
    else
      some (false, some CmdError.noSuchRoute, st, [])
  | Cmd.forwardRecord => forwardBody rec st
  | Cmd.dropRecord => some (true, none, st, [])
  | Cmd.quitProgram => some (false, none, st, [])
  | Cmd.continueType =>
    match rec with
    | none => some (true, none, st, [])
    | some _ => forwardBody rec st
  | Cmd.unknownCmd => some (false, some CmdError.unknownCommand, st, [])

/-- The final engine state of a `handleCMD` outcome. -/
def resultState (res : Option (Bool × Option CmdError × EngineState × List Effect)) :
    Option EngineState :=
  res.map (fun x => x.2.2.1)

/-- The route-table invariant of the spec: a non-empty default endpoint
always names a key of the table. -/
def defaultInvariant (st : EngineState) : Prop :=
  ∀ ep, st.defaultroute = some ep → ep ∈ st.routeTable

/-- A sample endpoint used by concrete witnesses. -/
def epA : EndPoint := EndPoint.mk [127, 0, 0, 1] 1589

/-- A second sample endpoint used by concrete witnesses. -/
def epB : EndPoint := EndPoint.mk [10, 0, 0, 2] 9000

/-! ## Claim C4: the remove-route command -/

/-- Claim C4 (code bug): the switch in `getCommandType` has no case for
the byte `r` (ASCII 114) even though the help text documents
`r <ip> <port>`, so an operator line whose first token is `r` is rejected
as a syntax error (`getNextCommand` returns nil) and no input whatsoever
can produce the `removeRoute` command. -/
theorem removeRoute_unreachable :
    (∀ rest, getNextCommand ([114] :: rest) = none)
    ∧ ∀ c, getCommandType c ≠ commandtype.removeRoute := by
  constructor
  · intro rest
    have hu : getCommandType 114 = commandtype.unknown := by decide
    simp [getNextCommand, hu]
  · intro c
    unfold getCommandType
    split <;> decide

/-! ## Claim C5: the continue command -/

/-- Claim C5 (counterexample): with a pending record and a configured
default route, the `continueType` case of `handleCMD` falls through to
`forwardRecord` and writes the record's bytes to the default route, so
handling `continue` is not write-free. -/
theorem continue_forwards_pending_record_counterexample :
    handleCMD Cmd.continueType (some (tlsRecord.mk 0x17 [3, 3] 3 [1, 2, 3]))
        (EngineState.mk [epA] (some epA) [0x17])
      = some (true, none, EngineState.mk [epA] (some epA) [0x17],
          [Effect.writeRoute epA [0x17, 3, 3, 0, 3, 1, 2, 3]])
    ∧ [Effect.writeRoute epA [0x17, 3, 3, 0, 3, 1, 2, 3]] ≠ ([] : List Effect) := by
  decide

/-- Claim C5 (amended): `continue` with no pending record resumes the
engine and writes nothing; with a pending record the `continueType` case
falls through and behaves exactly like the `forward` command ("continue
and forward the record if any", as the program's help text puts it). -/
theorem continue_resumes_or_forwards :
    (∀ st, handleCMD Cmd.continueType none st = some (true, none, st, []))
    ∧ ∀ st r, handleCMD Cmd.continueType (some r) st
        = handleCMD Cmd.forwardRecord (some r) st :=
  ⟨fun _ => rfl, fun _ _ => rfl⟩

/-! ## Claim C6: forward with no pending record -/

/-- Claim C6 (counterexample): in the start-up pause state (empty route
table, nil `defaultroute`) with no pending record — exactly the
signal-triggered pause the claim covers — `forward` does not fail with the
`NoRecord` error: `routeTable[*defaultroute]` dereferences the nil
`defaultroute` pointer before the record check, a run-time panic. -/
theorem forward_nil_default_counterexample :
    handleCMD Cmd.forwardRecord none (EngineState.mk [] none [0x17]) = none := by
  decide

/-- Claim C6 (amended): in every pause where `currentRecord` is empty and
the `defaultroute` pointer is set, `forward` fails with the `"No record"`
error, writes nothing to any route, and leaves the pause active
(`bk = false`); when no default route was ever set the code panics
instead. -/
theorem forward_no_record_with_default (st : EngineState) (dep : EndPoint)
    (hd : st.defaultroute = some dep) :
    handleCMD Cmd.forwardRecord none st = some (false, some CmdError.noRecord, st, []) := by
  simp [handleCMD, forwardBody, hd]

/-- Concrete instance certifying that the hypothesis of
`forward_no_record_with_default` is satisfiable. -/
theorem forward_no_record_with_default_witness :
    (EngineState.mk [] (some epA) [0x17]).defaultroute = some epA
    ∧ handleCMD Cmd.forwardRecord none (EngineState.mk [] (some epA) [0x17])
      = some (false, some CmdError.noRecord, EngineState.mk [] (some epA) [0x17], []) :=
  ⟨rfl, forward_no_record_with_default (EngineState.mk [] (some epA) [0x17]) epA rfl⟩

/-! ## Claim C7: the default-route invariant -/

/-- Claim C7 (counterexample): removing the endpoint that is the current
default destroys the invariant.  From the invariant-satisfying state with
route table `[epA]` and default `epA`, the `removeRoute` operation
succeeds but leaves `defaultroute = some epA` pointing into an empty
table. -/
theorem remove_default_dangles_counterexample :
    defaultInvariant (EngineState.mk [epA] (some epA) [0x17])
    ∧ handleCMD (Cmd.removeRoute epA) none (EngineState.mk [epA] (some epA) [0x17])
      = some (false, none, EngineState.mk [] (some epA) [0x17], [Effect.closeRoute epA])
    ∧ ¬ defaultInvariant (EngineState.mk [] (some epA) [0x17]) := by
  refine ⟨?_, by decide, ?_⟩
  · intro ep hep
    obtain rfl : epA = ep := by injection hep
    simp
  · intro h
    exact absurd (h epA rfl) (List.not_mem_nil epA)

/-- Claim C7 (amended): `addRoute` and `setDefaultRoute` always preserve
the invariant that a non-empty default endpoint names a table key;
`removeRoute` preserves it exactly when the removed endpoint is not the
current default — removing the current default leaves the pointer
dangling, as the spec's own design notes concede. -/
theorem routeTable_ops_invariant (st : EngineState) (ep : EndPoint)
    (rec : Option tlsRecord) (h : defaultInvariant st) :
    (∀ st2, resultState (handleCMD (Cmd.addRoute ep) rec st) = some st2 → defaultInvariant st2)
    ∧ (∀ st2, resultState (handleCMD (Cmd.setDefaultRoute ep) rec st) = some st2
        → defaultInvariant st2)
    ∧ (st.defaultroute ≠ some ep →
        ∀ st2, resultState (handleCMD (Cmd.removeRoute ep) rec st) = some st2
          → defaultInvariant st2) := by
  refine ⟨?_, ?_, ?_⟩
  · intro st2 h2
    simp only [handleCMD, resultState, Option.map, Option.some.injEq] at h2
    subst h2
    intro d hd
    dsimp at hd ⊢
    by_cases hlen : st.routeTable.length = 0
    · rw [if_pos hlen] at hd
      obtain rfl : ep = d := by injection hd
      have htab : st.routeTable = [] := List.length_eq_zero.mp hlen
      simp [htab]
    · rw [if_neg hlen] at hd
      have hmem := h d hd
      by_cases hm : ep ∈ st.routeTable
      · simpa [hm] using hmem
      · simp [hm, List.mem_append, hmem]
  · intro st2 h2
    by_cases hm : ep ∈ st.routeTable
    · simp only [handleCMD, if_pos hm, resultState, Option.map, Option.some.injEq] at h2
      subst h2
      intro d hd
      obtain rfl : ep = d := by injection hd
      exact hm
    · simp only [handleCMD, if_neg hm, resultState, Option.map, Option.some.injEq] at h2
      subst h2
      exact h
  · intro hne st2 h2
    by_cases hm : ep ∈ st.routeTable
    · simp only [handleCMD, if_pos hm, resultState, Option.map, Option.some.injEq] at h2
      subst h2
      intro d hd
      dsimp at hd ⊢
      have hmem := h d hd
      have hdne : d ≠ ep := by
        intro hde
        subst hde
        exact hne hd
      exact (List.mem_erase_of_ne hdne).mpr hmem
    · simp only [handleCMD, if_neg hm, resultState, Option.map, Option.some.injEq] at h2
      subst h2
      exact h

/-- Concrete instance certifying that the hypotheses of
`routeTable_ops_invariant` are satisfiable. -/
theorem routeTable_ops_invariant_witness :
    defaultInvariant (EngineState.mk [] none [])
    ∧ defaultInvariant (EngineState.mk [epA] (some epA) []) := by
  have h0 : defaultInvariant (EngineState.mk [] none []) := by
    intro d hd
    exact absurd hd (by simp)
  refine ⟨h0, ?_⟩
  exact (routeTable_ops_invariant (EngineState.mk [] none []) epA none h0).1
    (EngineState.mk [epA] (some epA) []) (by decide)

/-! ## Claim C8: default-route auto-assignment on add -/

/-- Claim C8: adding a route to an empty route table makes its endpoint
the default (`if len(routeTable) == 0 { defaultroute = ep }` runs before
the insertion), and adding a route to a non-empty table leaves the default
endpoint unchanged. -/
theorem addRoute_default_assignment (st : EngineState) (ep : EndPoint)
    (rec : Option tlsRecord) (bk : Bool) (e : Option CmdError) (st2 : EngineState)
    (effs : List Effect)
    (h : handleCMD (Cmd.addRoute ep) rec st = some (bk, e, st2, effs)) :
    (st.routeTable = [] → st2.defaultroute = some ep)
    ∧ (st.routeTable ≠ [] → st2.defaultroute = st.defaultroute) := by
  simp only [handleCMD, Option.some.injEq, Prod.mk.injEq] at h
  obtain ⟨-, -, hst, -⟩ := h
  subst hst
  constructor
  · intro hT
    dsimp
    rw [if_pos (by rw [hT]; rfl)]
  · intro hT
    dsimp
    rw [if_neg (fun hh => hT (List.length_eq_zero.mp hh))]

/-- Concrete instance certifying that the hypotheses of
`addRoute_default_assignment` are satisfiable, in both the empty-table and
the second-add configuration. -/
theorem addRoute_default_assignment_witness :
    (EngineState.mk [epA] (some epA) [0x17]).defaultroute = some epA
    ∧ (EngineState.mk [epA, epB] (some epA) [0x17]).defaultroute = some epA := by
  constructor
  · exact (addRoute_default_assignment (EngineState.mk [] none [0x17]) epA none false none
      (EngineState.mk [epA] (some epA) [0x17]) [Effect.runRoute epA] (by decide)).1 rfl
  · have h2 := (addRoute_default_assignment (EngineState.mk [epA] (some epA) [0x17]) epB none
      false none (EngineState.mk [epA, epB] (some epA) [0x17]) [Effect.runRoute epB]
      (by decide)).2 (by decide)
    exact h2.trans rfl

/-! ## Claim C9: breakpoint initialization and toggling -/

/-- Claim C9: `breakpoints` is initialized to `{0x17}` (ApplicationData),
and for every record-type byte `t` the break command toggles membership of
`t` (absent becomes present, present becomes absent), so two applications
in a row restore the breakpoint set to exactly its prior members.  The
`Nodup` hypothesis states that the list models the key set of a Go map. -/
theorem breakpoints_init_and_toggle :
    (∀ u, u ∈ initialBreakpoints ↔ u = 0x17)
    ∧ ∀ (t : Nat) (st : EngineState) (rec : Option tlsRecord),
        t < 256 → st.breakpoints.Nodup →
        ∀ bk1 e1 st1 ef1, handleCMD (Cmd.breakType t) rec st = some (bk1, e1, st1, ef1) →
        ∀ bk2 e2 st2 ef2, handleCMD (Cmd.breakType t) rec st1 = some (bk2, e2, st2, ef2) →
          (t ∈ st1.breakpoints ↔ ¬ t ∈ st.breakpoints)
          ∧ ∀ u, u ∈ st2.breakpoints ↔ u ∈ st.breakpoints := by
  constructor
  · intro u
    simp [initialBreakpoints]
  · intro t st rec ht hnd bk1 e1 st1 ef1 h1 bk2 e2 st2 ef2 h2
    have hmod : t % 256 = t := Nat.mod_eq_of_lt ht
    simp only [handleCMD, hmod] at h1 h2
    by_cases hm : t ∈ st.breakpoints
    · rw [if_pos hm] at h1
      simp only [Option.some.injEq, Prod.mk.injEq] at h1
      obtain ⟨-, -, hst1, -⟩ := h1
      subst hst1
      have hnotmem : t ∉ st.breakpoints.erase t := hnd.not_mem_erase
      dsimp at h2
      rw [if_neg hnotmem] at h2
      simp only [Option.some.injEq, Prod.mk.injEq] at h2
      obtain ⟨-, -, hst2, -⟩ := h2
      subst hst2
      constructor
      · dsimp
        simp [hnotmem, hm]
      · intro u
        dsimp
        by_cases hu : u = t
        · subst hu
          simp [hm]
        · simp [List.mem_cons, hu, List.mem_erase_of_ne hu]
    · rw [if_neg hm] at h1
      simp only [Option.some.injEq, Prod.mk.injEq] at h1
      obtain ⟨-, -, hst1, -⟩ := h1
      subst hst1
      dsimp at h2
      rw [if_pos (List.mem_cons_self t st.breakpoints)] at h2
      simp only [Option.some.injEq, Prod.mk.injEq] at h2
      obtain ⟨-, -, hst2, -⟩ := h2
      subst hst2
      constructor
      · simp [hm]
      · intro u
        dsimp
        rw [List.erase_cons_head]

/-- Concrete instance certifying that the hypotheses of
`breakpoints_init_and_toggle` are satisfiable: toggling `0x17` twice from
the initial breakpoint set passes through the empty set and returns to a
set with the same members. -/
theorem breakpoints_init_and_toggle_witness :
    ((0x17 : Nat) < 256 ∧ initialBreakpoints.Nodup)
    ∧ ((0x17 ∈ ([] : List Nat) ↔ ¬ 0x17 ∈ initialBreakpoints)
        ∧ ∀ u : Nat, u ∈ [0x17] ↔ u ∈ initialBreakpoints) :=
  ⟨⟨by decide, by decide⟩,
    breakpoints_init_and_toggle.2 0x17 (EngineState.mk [] none initialBreakpoints) none
      (by decide) (by decide) false none (EngineState.mk [] none []) [] (by decide)
      false none (EngineState.mk [] none [0x17]) [] (by decide)⟩

/-! ## Claim C10: route commands require an IPv4-representable address -/

/-- Claim C10: when the resolved IP has no 4-byte IPv4 form (`To4` returns
nil), `NewEndPoint` indexes the nil slice — a run-time panic, not an
operator-facing error — and the panic propagates through the `parseEP`
helper that every route command (`a`, `r`, `s`) uses on its first resolved
address, so IPv4-representability is a precondition of those commands. -/
theorem NewEndPoint_requires_ipv4 :
    (∀ ip port, to4 ip = none → NewEndPoint ip port = none)
    ∧ ∀ ip rest port, to4 ip = none → parseEP (ip :: rest) port = none := by
  constructor
  · intro ip port h
    simp [NewEndPoint, h]
  · intro ip rest port h
    simp [parseEP, NewEndPoint, h]

/-- Concrete instance certifying that the hypotheses of
`NewEndPoint_requires_ipv4` are satisfiable: the IPv6-only address
`2001:db8::1` (16 bytes, not IPv4-mapped) makes `NewEndPoint` panic. -/
theorem NewEndPoint_requires_ipv4_witness :
    to4 [0x20, 0x01, 0x0d, 0xb8, 0, 0, 0, 0, 0, 0, 0, 0, 0, 0, 0, 1] = none
    ∧ NewEndPoint [0x20, 0x01, 0x0d, 0xb8, 0, 0, 0, 0, 0, 0, 0, 0, 0, 0, 0, 1] 1589 = none :=
  ⟨by decide,
    NewEndPoint_requires_ipv4.1 [0x20, 0x01, 0x0d, 0xb8, 0, 0, 0, 0, 0, 0, 0, 0, 0, 0, 0, 1]
      1589 (by decide)⟩

end Tlsdb
